import Mathlib

/-!
Verification of the vice air-traffic-control core (sim.go, ui.go) against its
natural-language specification.  The Go code is shallowly embedded: Go maps
become association lists over `String` keys, `time.Time` becomes rational
seconds of virtual time, `error` returns become `Except ATCError`, and the
random draws the code consumes (`rand.Intn`, `rand.Float32`) become explicit
arguments.  Event posting to the event stream / `controlUpdates` is modelled
as an accumulating event list.
-/

set_option linter.unusedVariables false

/-- Association-list lookup, mirroring a Go map read `m[k]`. -/
def alookup {α : Type} (m : List (String × α)) (k : String) : Option α :=
  match m with
  | [] => none
  | (k', v) :: rest => if k' = k then some v else alookup rest k

/-- Association-list insert-or-replace, mirroring a Go map write `m[k] = v`. -/
def aupdate {α : Type} (m : List (String × α)) (k : String) (v : α) :
    List (String × α) :=
  match m with
  | [] => [(k, v)]
  | (k', v') :: rest => if k' = k then (k, v) :: rest else (k', v') :: aupdate rest k v

/-- Association-list removal, mirroring Go `delete(m, k)`. -/
def adelete {α : Type} (m : List (String × α)) (k : String) : List (String × α) :=
  match m with
  | [] => []
  | (k', v') :: rest => if k' = k then adelete rest k else (k', v') :: adelete rest k

/-- The keys of an association list, for stating Go's map-key uniqueness. -/
def akeys {α : Type} (m : List (String × α)) : List String := m.map (·.1)

theorem alookup_aupdate_self {α : Type} (m : List (String × α)) (k : String) (v : α) :
    alookup (aupdate m k v) k = some v := by
  induction m with
  | nil => simp [aupdate, alookup]
  | cons p rest ih =>
    obtain ⟨k', v'⟩ := p
    by_cases h : k' = k
    · simp [aupdate, alookup, h]
    · simp [aupdate, alookup, h, ih]

theorem alookup_aupdate_ne {α : Type} (m : List (String × α)) (k k' : String) (v : α)
    (h : k ≠ k') : alookup (aupdate m k v) k' = alookup m k' := by
  induction m with
  | nil => simp [aupdate, alookup, h]
  | cons p rest ih =>
    obtain ⟨k₀, v₀⟩ := p
    by_cases h₀ : k₀ = k
    · subst h₀
      simp [aupdate, alookup, h]
    · simp only [aupdate, if_neg h₀]
      by_cases h₁ : k₀ = k'
      · simp [alookup, h₁]
      · simp [alookup, h₁, ih]

theorem alookup_adelete_self {α : Type} (m : List (String × α)) (k : String) :
    alookup (adelete m k) k = none := by
  induction m with
  | nil => simp [adelete, alookup]
  | cons p rest ih =>
    obtain ⟨k', v'⟩ := p
    by_cases h : k' = k
    · simp [adelete, h, ih]
    · simp [adelete, alookup, h, ih]

theorem alookup_adelete_ne {α : Type} (m : List (String × α)) (k k' : String)
    (h : k ≠ k') : alookup (adelete m k) k' = alookup m k' := by
  induction m with
  | nil => simp [adelete]
  | cons p rest ih =>
    obtain ⟨k₀, v₀⟩ := p
    by_cases h₀ : k₀ = k
    · subst h₀
      simp [adelete, alookup, h, Ne.symm h, ih]
    · by_cases h₁ : k₀ = k'
      · simp [adelete, alookup, h₀, h₁, h, Ne.symm h]
      · simp [adelete, alookup, h₀, h₁, ih]

theorem alookup_eq_none_of_not_mem_akeys {α : Type} (m : List (String × α)) (k : String)
    (h : k ∉ akeys m) : alookup m k = none := by
  induction m with
  | nil => simp [alookup]
  | cons p rest ih =>
    obtain ⟨k', v'⟩ := p
    have hcons : akeys ((k', v') :: rest) = k' :: akeys rest := rfl
    rw [hcons, List.mem_cons] at h
    push_neg at h
    simp only [alookup]
    rw [if_neg (fun he => h.1 he.symm)]
    exact ih h.2

/-- The error kinds returned by the two Command Service implementations
(`sim.go` top-level `Err...` values and the additional protocol-side errors
referenced by `ui.go`). -/
inductive ATCError where
  | ArrivalAirportUnknown
  | UnknownApproach
  | ClearedForUnexpectedApproach
  | NoAircraftForCallsign
  | NoFlightPlan
  | OtherControllerHasTrack
  | NotBeingHandedOffToMe
  | NoController
  | UnknownAircraftType
  | UnableCommand
  | NotController
  | NoFlightPlanFiled
  | ScratchpadTooLong
deriving Repr, DecidableEq

/-- Lifecycle events posted to the event stream (`eventStream.Post` in
`sim.go`) or recorded in `controlUpdates` (`ui.go`); each carries the
affected callsign and, where relevant, the acting controller. -/
inductive Event where
  | AddedAircraft (callsign : String)
  | ModifiedAircraft (callsign : String)
  | RemovedAircraft (callsign : String)
  | InitiatedTrack (callsign : String)
  | DroppedTrack (callsign : String)
  | AcceptedHandoff (controller : String) (callsign : String)
  | RadioTransmission (callsign : String)
deriving Repr, DecidableEq

/-- The fields of `Aircraft` that the Local Simulation command service reads
and writes (sim.go).  `heading` stands for `int(ac.Heading)` as used by
`TurnLeft`/`TurnRight`; `flightPlanAltitude` is `ac.FlightPlan.Altitude`. -/
structure Aircraft where
  trackingController : String
  outboundHandoffController : String
  inboundHandoffController : String
  scratchpad : String
  assignedAltitude : Int
  flightPlanAltitude : Int
  assignedHeading : Int
  heading : Int
  turnDirection : Int
  clearedApproach : Bool
deriving Repr, DecidableEq

/-- A control position (`Controller` in the scenario group): callsign and
sector id, as consulted by `Sim.GetController`. -/
structure Controller where
  callsign : String
  sectorId : String
deriving Repr, DecidableEq

/-- The state of the Local Simulation (`Sim` in sim.go) that the claims
touch: the aircraft registry, pending handoff deadlines, the scenario's
controller callsign (`sim.Scenario.Callsign`), the known control positions
(`scenarioGroup.ControlPositions` plus the scenario's active controller
list), the virtual clock, and the posted events. -/
structure SimState where
  scenarioCallsign : String
  aircraft : List (String × Aircraft)
  handoffs : List (String × ℚ)
  controlPositions : List (String × Controller)
  scenarioControllers : List String
  currentTime : ℚ
  events : List Event
deriving Repr, DecidableEq

namespace Sim

/-- Embeds `Sim.GetController` (sim.go): look the callsign up in the scenario
group's control positions; failing that, find a control position whose
sector id matches and which is active in the current scenario. -/
def GetController (s : SimState) (callsign : String) : Option Controller :=
  match alookup s.controlPositions callsign with
  | some ctrl => some ctrl
  | none =>
    (s.controlPositions.find? (fun p =>
      p.2.sectorId == callsign && s.scenarioControllers.contains p.2.callsign)).map (·.2)

/-- Embeds `Sim.SetScratchpad` (sim.go:476): requires the aircraft to exist and to
be tracked by the scenario's controller; then stores the string (of any
length) and posts a modified-aircraft event. -/
def SetScratchpad (s : SimState) (callsign scratchpad : String) :
    Except ATCError SimState :=
  match alookup s.aircraft callsign with
  | none => .error .NoAircraftForCallsign
  | some ac =>
    if ac.trackingController ≠ s.scenarioCallsign then
      .error .OtherControllerHasTrack
    else
      .ok { s with
        aircraft := aupdate s.aircraft callsign { ac with scratchpad := scratchpad }
        events := s.events ++ [.ModifiedAircraft callsign] }

/-- Embeds `Sim.InitiateTrack` (sim.go:500): fails unless the aircraft exists and
is currently untracked; then sets the tracking controller to the scenario's
controller. -/
def InitiateTrack (s : SimState) (callsign : String) : Except ATCError SimState :=
  match alookup s.aircraft callsign with
  | none => .error .NoAircraftForCallsign
  | some ac =>
    if ac.trackingController ≠ "" then
      .error .OtherControllerHasTrack
    else
      .ok { s with
        aircraft := aupdate s.aircraft callsign
          { ac with trackingController := s.scenarioCallsign }
        events := s.events ++ [.ModifiedAircraft callsign, .InitiatedTrack callsign] }

/-- Embeds `Sim.DropTrack` (sim.go:513): fails unless the requester (the scenario's
controller) tracks the aircraft; then clears the tracking controller. -/
def DropTrack (s : SimState) (callsign : String) : Except ATCError SimState :=
  match alookup s.aircraft callsign with
  | none => .error .NoAircraftForCallsign
  | some ac =>
    if ac.trackingController ≠ s.scenarioCallsign then
      .error .OtherControllerHasTrack
    else
      .ok { s with
        aircraft := aupdate s.aircraft callsign { ac with trackingController := "" }
        events := s.events ++ [.ModifiedAircraft callsign, .DroppedTrack callsign] }

/-- Embeds `Sim.Handoff` (sim.go:526): requires the requester to track the aircraft
and the target controller to exist; sets the outbound handoff controller and
records a pending handoff with deadline `now + (2 + rand.Intn(10))` seconds.
The draw `rand.Intn(10)` is passed explicitly as `randDelay` (so a faithful
caller supplies `randDelay < 10`). -/
def Handoff (s : SimState) (callsign controller : String) (randDelay : ℕ) :
    Except ATCError SimState :=
  match alookup s.aircraft callsign with
  | none => .error .NoAircraftForCallsign
  | some ac =>
    if ac.trackingController ≠ s.scenarioCallsign then
      .error .OtherControllerHasTrack
    else
      match GetController s controller with
      | none => .error .NoController
      | some ctrl =>
        .ok { s with
          aircraft := aupdate s.aircraft callsign
            { ac with outboundHandoffController := ctrl.callsign }
          events := s.events ++ [.ModifiedAircraft callsign]
          handoffs := aupdate s.handoffs callsign
            (s.currentTime + ((2 + randDelay : ℕ) : ℚ)) }

/-- Embeds `Sim.AcceptHandoff` (sim.go:542): fails unless the aircraft's inbound
handoff controller equals the scenario's controller; then clears the inbound
handoff and takes the track. -/
def AcceptHandoff (s : SimState) (callsign : String) : Except ATCError SimState :=
  match alookup s.aircraft callsign with
  | none => .error .NoAircraftForCallsign
  | some ac =>
    if ac.inboundHandoffController ≠ s.scenarioCallsign then
      .error .NotBeingHandedOffToMe
    else
      .ok { s with
        aircraft := aupdate s.aircraft callsign
          { ac with inboundHandoffController := ""
                    trackingController := s.scenarioCallsign }
        events := s.events ++ [.AcceptedHandoff s.scenarioCallsign callsign,
                               .ModifiedAircraft callsign] }

/-- Embeds `Sim.CancelHandoff` (sim.go:560): requires the requester to track the
aircraft; then clears the outbound handoff controller. -/
def CancelHandoff (s : SimState) (callsign : String) : Except ATCError SimState :=
  match alookup s.aircraft callsign with
  | none => .error .NoAircraftForCallsign
  | some ac =>
    if ac.trackingController ≠ s.scenarioCallsign then
      .error .OtherControllerHasTrack
    else
      .ok { s with
        aircraft := aupdate s.aircraft callsign
          { ac with outboundHandoffController := "" }
        events := s.events ++ [.ModifiedAircraft callsign] }

/-- Embeds `Sim.AssignHeading` (sim.go:807): a pilot read-back is posted, a heading
of 0 is stored as 360 (0 denotes "unassigned"), the turn direction is
recorded, and any approach clearance is cancelled. -/
def assignHeadingAC (ac : Aircraft) (heading turn : Int) : Aircraft :=
  let heading' := if heading = 0 then 360 else heading
  { ac with assignedHeading := heading'
            turnDirection := turn
            clearedApproach := false }

/-- Embeds `Sim.AssignHeading` (sim.go:807), continued: the full operation on the
simulation state. -/
def AssignHeading (s : SimState) (callsign : String) (heading turn : Int) :
    Except ATCError SimState :=
  match alookup s.aircraft callsign with
  | none => .error .NoAircraftForCallsign
  | some ac =>
    .ok { s with
      aircraft := aupdate s.aircraft callsign (assignHeadingAC ac heading turn)
      events := s.events ++ [.RadioTransmission callsign] }

/-- Embeds `Sim.TurnLeft` (sim.go:833): subtract `deg` from the assigned heading
(or from the current heading when none is assigned), wrap once by adding 360
when the result is ≤ 0, clear the turn direction and the approach
clearance. -/
def turnLeftAC (ac : Aircraft) (deg : Int) : Aircraft :=
  let h0 := if ac.assignedHeading = 0 then ac.heading - deg else ac.assignedHeading - deg
  let h1 := if h0 ≤ 0 then h0 + 360 else h0
  { ac with assignedHeading := h1
            turnDirection := 0
            clearedApproach := false }

/-- Embeds `Sim.TurnLeft` (sim.go:833), continued: the full operation on the
simulation state. -/
def TurnLeft (s : SimState) (callsign : String) (deg : Int) :
    Except ATCError SimState :=
  match alookup s.aircraft callsign with
  | none => .error .NoAircraftForCallsign
  | some ac =>
    .ok { s with
      aircraft := aupdate s.aircraft callsign (turnLeftAC ac deg)
      events := s.events ++ [.RadioTransmission callsign] }

/-- Embeds `Sim.TurnRight` (sim.go:854): add `deg` to the assigned heading (or to
the current heading when none is assigned), wrap once by subtracting 360
when the result exceeds 360, clear the turn direction and the approach
clearance. -/
def turnRightAC (ac : Aircraft) (deg : Int) : Aircraft :=
  let h0 := if ac.assignedHeading = 0 then ac.heading + deg else ac.assignedHeading + deg
  let h1 := if h0 > 360 then h0 - 360 else h0
  { ac with assignedHeading := h1
            turnDirection := 0
            clearedApproach := false }

/-- Embeds `Sim.TurnRight` (sim.go:854), continued: the full operation on the
simulation state. -/
def TurnRight (s : SimState) (callsign : String) (deg : Int) :
    Except ATCError SimState :=
  match alookup s.aircraft callsign with
  | none => .error .NoAircraftForCallsign
  | some ac =>
    .ok { s with
      aircraft := aupdate s.aircraft callsign (turnRightAC ac deg)
      events := s.events ++ [.RadioTransmission callsign] }

end Sim

/-- The fields of the protocol adapter's `Aircraft` that the claims touch
(ui.go): the scratchpad and the time of the most recent radar track
(`ac.tracks[0].time`), in rational seconds of session time. -/
structure VAircraft where
  scratchpad : String
  latestTrackTime : ℚ
deriving Repr, DecidableEq

/-- The state of the Network Protocol Adapter (`VATSIMServer` in ui.go) that
the claims touch: the signed-in callsign, the `atcValid` flag, the aircraft
registry, the known controllers, the tracking/outbound-handoff/inbound-
handoff maps, and the events recorded in `controlUpdates`. -/
structure VATSIMState where
  callsign : String
  atcValid : Bool
  aircraft : List (String × VAircraft)
  controllers : List String
  trackingControllers : List (String × String)
  outboundHandoffs : List (String × String)
  inboundHandoffs : List (String × String)
  events : List Event
deriving Repr, DecidableEq

namespace VATSIMServer

/-- Embeds `VATSIMServer.trackedByAnotherController` (ui.go:1851): the aircraft has
a tracking controller recorded and it differs from our callsign. -/
def trackedByAnotherController (v : VATSIMState) (callsign : String) : Bool :=
  match alookup v.trackingControllers callsign with
  | some c => c ≠ v.callsign
  | none => false

/-- Embeds `VATSIMServer.InboundHandoffController` (ui.go:1471): the recorded
inbound-handoff controller for the callsign, or "" if none. -/
def InboundHandoffController (v : VATSIMState) (callsign : String) : String :=
  match alookup v.inboundHandoffs callsign with
  | some controller => controller
  | none => ""

/-- Embeds `VATSIMServer.SetScratchpad` (ui.go:1549): requires a valid ATC session,
an existing aircraft not tracked by another controller, and a scratchpad of
at most 3 characters; then stores the string.  (The delegate call that
forwards the command over the wire is an external side effect.) -/
def SetScratchpad (v : VATSIMState) (callsign scratchpad : String) :
    Except ATCError VATSIMState :=
  if !v.atcValid then .error .NotController
  else match alookup v.aircraft callsign with
  | none => .error .NoAircraftForCallsign
  | some ac =>
    if trackedByAnotherController v callsign then .error .OtherControllerHasTrack
    else if scratchpad.length > 3 then .error .ScratchpadTooLong
    else
      .ok { v with
        aircraft := aupdate v.aircraft callsign { ac with scratchpad := scratchpad }
        events := v.events ++ [.ModifiedAircraft callsign] }

/-- Embeds `VATSIMServer.InitiateTrack` (ui.go:1643): requires a valid ATC session
and an existing aircraft not tracked by another controller; then records us
as its tracking controller. -/
def InitiateTrack (v : VATSIMState) (callsign : String) :
    Except ATCError VATSIMState :=
  if !v.atcValid then .error .NotController
  else match alookup v.aircraft callsign with
  | none => .error .NoAircraftForCallsign
  | some ac =>
    if trackedByAnotherController v callsign then .error .OtherControllerHasTrack
    else
      .ok { v with
        trackingControllers := aupdate v.trackingControllers callsign v.callsign
        events := v.events ++ [.ModifiedAircraft callsign] }

/-- Embeds `VATSIMServer.DropTrack` (ui.go:1658): requires a valid ATC session and
an existing aircraft not tracked by another controller; then deletes the
tracking record. -/
def DropTrack (v : VATSIMState) (callsign : String) : Except ATCError VATSIMState :=
  if !v.atcValid then .error .NotController
  else match alookup v.aircraft callsign with
  | none => .error .NoAircraftForCallsign
  | some ac =>
    if trackedByAnotherController v callsign then .error .OtherControllerHasTrack
    else
      .ok { v with
        trackingControllers := adelete v.trackingControllers callsign
        events := v.events ++ [.ModifiedAircraft callsign] }

/-- Embeds `VATSIMServer.Handoff` (ui.go:1673): requires a valid ATC session, an
existing aircraft not tracked by another controller, and a known target
controller; then records the outbound handoff and awaits the asynchronous
acceptance message (no local deadline is created). -/
def Handoff (v : VATSIMState) (callsign controller : String) :
    Except ATCError VATSIMState :=
  if !v.atcValid then .error .NotController
  else match alookup v.aircraft callsign with
  | none => .error .NoAircraftForCallsign
  | some ac =>
    if trackedByAnotherController v callsign then .error .OtherControllerHasTrack
    else if !(v.controllers.contains controller) then .error .NoController
    else
      .ok { v with
        outboundHandoffs := aupdate v.outboundHandoffs callsign controller
        events := v.events ++ [.ModifiedAircraft callsign] }

/-- Embeds `VATSIMServer.AcceptHandoff` (ui.go:1690): requires a valid ATC session,
an existing aircraft, and the mere existence of an inbound-handoff record
for the callsign (the recorded offering controller is not compared with the
requester); then records us as tracking controller and deletes the inbound
record. -/
def AcceptHandoff (v : VATSIMState) (callsign : String) :
    Except ATCError VATSIMState :=
  if !v.atcValid then .error .NotController
  else match alookup v.aircraft callsign with
  | none => .error .NoAircraftForCallsign
  | some ac =>
    match alookup v.inboundHandoffs callsign with
    | none => .error .NotBeingHandedOffToMe
    | some _ =>
      .ok { v with
        trackingControllers := aupdate v.trackingControllers callsign v.callsign
        inboundHandoffs := adelete v.inboundHandoffs callsign
        events := v.events ++ [.ModifiedAircraft callsign] }

end VATSIMServer

namespace Sim

/-- The handoff-resolution loop at the top of `Sim.updateState`
(sim.go:696-712): every pending record whose deadline has strictly passed
(`now.After(t)`) transfers the track to the outbound handoff controller,
clears the outbound handoff, posts an acceptance event, sets the assigned
altitude to the flight plan's cruise altitude, and is removed from the map;
records whose deadline has not passed are kept.  The aircraft registry, the
remaining records and the posted events are threaded through the loop. -/
def resolveHandoffsLoop (now : ℚ) (hs : List (String × ℚ))
    (acs : List (String × Aircraft)) (evs : List Event) :
    List (String × Aircraft) × List (String × ℚ) × List Event :=
  match hs with
  | [] => (acs, [], evs)
  | (c, t) :: rest =>
    if now > t then
      match alookup acs c with
      | some ac =>
        resolveHandoffsLoop now rest
          (aupdate acs c
            { ac with trackingController := ac.outboundHandoffController
                      outboundHandoffController := ""
                      assignedAltitude := ac.flightPlanAltitude })
          (evs ++ [.AcceptedHandoff ac.outboundHandoffController c])
      | none => resolveHandoffsLoop now rest acs evs
    else
      let r := resolveHandoffsLoop now rest acs evs
      (r.1, (c, t) :: r.2.1, r.2.2)

/-- The handoff-resolution step of `Sim.updateState`, packaged on the
simulation state: `now` is `sim.CurrentTime()`. -/
def resolveHandoffs (s : SimState) : SimState :=
  let r := resolveHandoffsLoop s.currentTime s.handoffs s.aircraft s.events
  { s with aircraft := r.1, handoffs := r.2.1, events := r.2.2 }

/-- Modelled from the spec and `util.go` (not under src/): linear
interpolation, `lerp(x, a, b) = (1-x)*a + x*b`, used by the spawn timer's
jitter.  `float32` arithmetic is idealized as exact rational arithmetic. -/
def lerp (x a b : ℚ) : ℚ := (1 - x) * a + x * b

/-- Embeds `randomWait` inside `Sim.SpawnAircraft` (sim.go:1279-1286): a rate of 0
yields a wait of 365 days; otherwise the wait is
`lerp(rand.Float32(), 0.85*avg, 1.15*avg)` seconds with `avg = 3600/rate`.
The uniform draw `rand.Float32() ∈ [0,1)` is the explicit argument `u`. -/
def randomWait (rate : ℕ) (u : ℚ) : ℚ :=
  if rate = 0 then ((365 : ℚ) * 24) * 3600
  else
    let avgSeconds : ℚ := 3600 / (rate : ℚ)
    lerp u ((85 : ℚ)/100 * avgSeconds) ((115 : ℚ)/100 * avgSeconds)

/-- The spawn-timer re-arm in `Sim.SpawnAircraft` (sim.go:1295, 1326):
`nextSpawn = now + randomWait(rateSum)`. -/
def rearmSpawn (now : ℚ) (rateSum : ℕ) (u : ℚ) : ℚ := now + randomWait rateSum u

/-- Embeds `sampleRateMap` (sim.go:1239-1251) with its stream of `rand.Float32()`
draws made explicit: iterate the rate map accumulating the running rate sum,
replacing the held result with the current item when the draw is below
`rate/runningSum`; returns the held result and the total rate sum.  (In Go
the `0/0` case produces NaN and the comparison is false; rational division
by zero likewise yields 0, so no replacement happens.) -/
def sampleRateMapLoop (us : List ℚ) (result : String) (rateSum : ℕ)
    (rates : List (String × ℕ)) : String × ℕ :=
  match rates, us with
  | [], _ => (result, rateSum)
  | (item, rate) :: rest, u :: us' =>
    let rateSum' := rateSum + rate
    if u < (rate : ℚ) / (rateSum' : ℚ) then
      sampleRateMapLoop us' item rateSum' rest
    else
      sampleRateMapLoop us' result rateSum' rest
  | (item, rate) :: rest, [] => (result, rateSum)

/-- Embeds `sampleRateMap` (sim.go:1239): run the weighted-reservoir loop starting
from the empty result and a zero running sum. -/
def sampleRateMap (us : List ℚ) (rates : List (String × ℕ)) : String × ℕ :=
  sampleRateMapLoop us "" 0 rates

/-- The probability that `sampleRateMap` returns `x`, over the independent
uniform draws it consumes: the denotation of the loop in which the test
`rand.Float32() < rate/runningSum` becomes a Bernoulli choice with
probability `rate/runningSum` (a probability in `[0,1]`, with the `0/0`
case contributing probability 0 exactly as the NaN comparison in Go is
always false). -/
def sampleRateMapPMF (result : String) (rateSum : ℕ) (rates : List (String × ℕ))
    (x : String) : ℚ :=
  match rates with
  | [] => if x = result then 1 else 0
  | (item, rate) :: rest =>
    let rateSum' := rateSum + rate
    let q : ℚ := (rate : ℚ) / (rateSum' : ℚ)
    q * sampleRateMapPMF item rateSum' rest x
      + (1 - q) * sampleRateMapPMF result rateSum' rest x

/-- The rate recorded for key `x` in a rate map (0 if absent); with the
map's keys unique this is the `*rate` entry for `x`. -/
def rateOf (rates : List (String × ℕ)) (x : String) : ℕ :=
  match rates with
  | [] => 0
  | (item, rate) :: rest => (if x = item then rate else 0) + rateOf rest x

/-- The total of all rates in a rate map: the `rateSum` that
`sampleRateMap` returns. -/
def totalRate (rates : List (String × ℕ)) : ℕ :=
  match rates with
  | [] => 0
  | (item, rate) :: rest => rate + totalRate rest

end Sim

/-- Go's `strings.Split(s, ":")` on the underlying characters: split on
every colon, keeping empty fields ("" splits to [""]). -/
def splitFieldsChar (s : List Char) : List (List Char) :=
  match s with
  | [] => [[]]
  | c :: rest =>
    if c = ':' then [] :: splitFieldsChar rest
    else
      match splitFieldsChar rest with
      | f :: fs => (c :: f) :: fs
      | [] => [[c]]

/-- Go's `strings.Split(s, ":")` producing the field strings. -/
def goSplitColon (s : List Char) : List String :=
  (splitFieldsChar s).map (fun cs => String.mk cs)

/-- Go's `strings.TrimSpace`: drop whitespace from both ends. -/
def goTrimSpace (s : List Char) : List Char :=
  ((s.dropWhile (fun c => c.isWhitespace)).reverse.dropWhile
      (fun c => c.isWhitespace)).reverse

/-- A protocol message specification (`VATSIMMessageSpec`, declared outside
src/ and dispatched by `VATSIMServer.GetUpdates`): `Match` yields the sender
and captured arguments when the colon-split fields match, and the optional
handler consumes them, returning the mutated state and an optional error
(errors are logged, never fatal).  The state type is a parameter since the
handlers' target state is the full server. -/
structure VATSIMMessageSpec (σ : Type) where
  Match : List String → Option (String × List String)
  handler : Option (σ → String → List String → σ × Option String)

/-- The log lines `VATSIMServer.GetUpdates` can emit while dispatching one
inbound message. -/
inductive DispatchLog where
  | emptyMessage
  | emptyFirstField (contents : String)
  | fsdMessageError (err : String) (contents : String)
  | noRuleMatched (contents : String)
deriving Repr, DecidableEq

namespace VATSIMServer

/-- One iteration of the `for _, spec := range vatsimMessageSpecs` loop in
`VATSIMServer.GetUpdates` (ui.go:1772-1781): if the specification matches
the split fields, bump the match count and, when a handler is present, run
it (logging its error, if any); otherwise leave the accumulator alone. -/
def dispatchStep {σ : Type} (contents : String) (strs : List String)
    (acc : σ × ℕ × List DispatchLog) (spec : VATSIMMessageSpec σ) :
    σ × ℕ × List DispatchLog :=
  match spec.Match strs with
  | some (sender, args) =>
    match spec.handler with
    | some h =>
      match h acc.1 sender args with
      | (st', some err) =>
        (st', acc.2.1 + 1, acc.2.2 ++ [.fsdMessageError err contents])
      | (st', none) => (st', acc.2.1 + 1, acc.2.2)
    | none => (acc.1, acc.2.1 + 1, acc.2.2)
  | none => acc

/-- The per-message dispatch of `VATSIMServer.GetUpdates` (ui.go:1756-1784):
trim and colon-split the line; skip (with a log) an empty field list or an
empty first field; otherwise try every registered specification in declared
order, applying the handler of each one that matches and logging handler
errors; log lines that no specification matched. -/
def dispatchMessage {σ : Type} (specs : List (VATSIMMessageSpec σ)) (st : σ)
    (contents : String) : σ × List DispatchLog :=
  let strs := goSplitColon (goTrimSpace contents.data)
  match strs with
  | [] => (st, [.emptyMessage])
  | s0 :: _ =>
    if s0.length = 0 then (st, [.emptyFirstField contents])
    else
      let r := specs.foldl (dispatchStep contents strs) (st, 0, [])
      if r.2.1 = 0 then (r.1, r.2.2 ++ [.noRuleMatched contents]) else (r.1, r.2.2)

/-- The message loop of `VATSIMServer.GetUpdates`: dispatch each received
line in order, accumulating state and logs; no line ever aborts the
session. -/
def dispatchBatch {σ : Type} (specs : List (VATSIMMessageSpec σ)) (st : σ)
    (msgs : List String) : σ × List DispatchLog :=
  match msgs with
  | [] => (st, [])
  | m :: rest =>
    let r := dispatchMessage specs st m
    let r' := dispatchBatch specs r.1 rest
    (r'.1, r.2 ++ r'.2)

/-- The specification-side semantics of dispatching one well-formed line:
apply, in declared table order, the handler of **every** specification whose
`Match` succeeds on the fields (not just the first match), ignoring handler
errors' effect on control flow. -/
def applyAllMatching {σ : Type} (specs : List (VATSIMMessageSpec σ)) (st : σ)
    (strs : List String) : σ :=
  match specs with
  | [] => st
  | spec :: rest =>
    match spec.Match strs with
    | some (sender, args) =>
      match spec.handler with
      | some h => applyAllMatching rest (h st sender args).1 strs
      | none => applyAllMatching rest st strs
    | none => applyAllMatching rest st strs

/-- The staleness sweep at the end of `VATSIMServer.GetUpdates`
(ui.go:1793-1804): iterate the aircraft registry and, for every aircraft
whose latest track is more than 30 minutes old, delete it from the aircraft,
tracking-controller, outbound-handoff and inbound-handoff maps and record a
removal event (`controlUpdates.RemoveAircraft`, modelled from the spec as
publishing one removal event for the aircraft). -/
def evictLoop (now : ℚ) (entries : List (String × VAircraft)) (v : VATSIMState) :
    VATSIMState :=
  match entries with
  | [] => v
  | (c, ac) :: rest =>
    if (now - ac.latestTrackTime) / 60 > 30 then
      evictLoop now rest
        { v with
          aircraft := adelete v.aircraft c
          trackingControllers := adelete v.trackingControllers c
          outboundHandoffs := adelete v.outboundHandoffs c
          inboundHandoffs := adelete v.inboundHandoffs c
          events := v.events ++ [.RemovedAircraft c] }
    else
      evictLoop now rest v

/-- The staleness sweep of `VATSIMServer.GetUpdates`, iterating over the
registry as it stood when the sweep started (Go permits deleting the
current entry while ranging over a map). -/
def evictStale (now : ℚ) (v : VATSIMState) : VATSIMState :=
  evictLoop now v.aircraft v

end VATSIMServer

/-! Concrete states used to exercise the operations. -/

/-- A sample aircraft tracked by controller "ME". -/
def acSample : Aircraft :=
  { trackingController := "ME"
    outboundHandoffController := ""
    inboundHandoffController := ""
    scratchpad := "ABC"
    assignedAltitude := 5000
    flightPlanAltitude := 37000
    assignedHeading := 0
    heading := 90
    turnDirection := 0
    clearedApproach := true }

/-- A sample Local Simulation state: one aircraft "AAL1" tracked by the
scenario controller "ME", one other control position "N90". -/
def simSample : SimState :=
  { scenarioCallsign := "ME"
    aircraft := [("AAL1", acSample)]
    handoffs := []
    controlPositions := [("N90", { callsign := "N90", sectorId := "1N" })]
    scenarioControllers := ["N90"]
    currentTime := 100
    events := [] }

/-- A sample protocol-adapter aircraft. -/
def vacSample : VAircraft := { scratchpad := "ABC", latestTrackTime := 0 }

/-- A sample protocol-adapter state corresponding to `simSample`: signed in
as "ME" with a valid ATC session, one aircraft "AAL1" tracked by "ME". -/
def vatSample : VATSIMState :=
  { callsign := "ME"
    atcValid := true
    aircraft := [("AAL1", vacSample)]
    controllers := ["N90"]
    trackingControllers := [("AAL1", "ME")]
    outboundHandoffs := []
    inboundHandoffs := []
    events := [] }

/-- Embeds `vatSample` with an inbound handoff of "AAL1" offered by controller
"N90". -/
def vatInbound : VATSIMState :=
  { vatSample with trackingControllers := [], inboundHandoffs := [("AAL1", "N90")] }

/-! ## C1: SetScratchpad length checking -/

/-- C1, counterexample: in the Local Simulation, `SetScratchpad` with the
4-character string "ABCD" on a tracked aircraft does **not** fail with
`ScratchpadTooLong`; it succeeds and stores the 4-character scratchpad. -/
theorem C1_counterexample :
    ("ABCD".length > 3) ∧
    (Sim.SetScratchpad simSample "AAL1" "ABCD").isOk = true ∧
    ((Sim.SetScratchpad simSample "AAL1" "ABCD").toOption.bind
      (fun s => (alookup s.aircraft "AAL1").map (·.scratchpad))) = some "ABCD" := by
  refine ⟨by decide, ?_, ?_⟩ <;> rfl

/-- C1, amended: only the Network Protocol Adapter rejects scratchpads
longer than 3 characters with `ScratchpadTooLong` (leaving all state
unchanged); the Local Simulation performs no length check, and for an
aircraft tracked by the requester it stores a scratchpad of any length. -/
theorem C1_scratchpad_amended :
    (∀ (v : VATSIMState) (callsign sp : String) (ac : VAircraft),
      v.atcValid = true →
      alookup v.aircraft callsign = some ac →
      alookup v.trackingControllers callsign = some v.callsign →
      sp.length > 3 →
      VATSIMServer.SetScratchpad v callsign sp = .error .ScratchpadTooLong) ∧
    (∀ (s : SimState) (callsign sp : String) (ac : Aircraft),
      alookup s.aircraft callsign = some ac →
      ac.trackingController = s.scenarioCallsign →
      ∃ s', Sim.SetScratchpad s callsign sp = .ok s' ∧
        alookup s'.aircraft callsign = some { ac with scratchpad := sp }) := by
  constructor
  · intro v callsign sp ac hvalid hac htrack hlen
    unfold VATSIMServer.SetScratchpad
    have htba : VATSIMServer.trackedByAnotherController v callsign = false := by
      unfold VATSIMServer.trackedByAnotherController
      rw [htrack]
      simp
    rw [hvalid, hac]
    simp [htba, if_pos hlen]
  · intro s callsign sp ac hac htrack
    refine ⟨{ s with
        aircraft := aupdate s.aircraft callsign { ac with scratchpad := sp }
        events := s.events ++ [.ModifiedAircraft callsign] }, ?_, ?_⟩
    · unfold Sim.SetScratchpad
      rw [hac]
      simp [htrack]
    · exact alookup_aupdate_self _ _ _

/-- C1 witness: the amended theorem applied to the sample states, with the
scratchpad "ABCD". -/
theorem C1_scratchpad_amended_witness :
    VATSIMServer.SetScratchpad vatSample "AAL1" "ABCD" = .error .ScratchpadTooLong ∧
    ∃ s', Sim.SetScratchpad simSample "AAL1" "ABCD" = .ok s' ∧
      alookup s'.aircraft "AAL1" = some { acSample with scratchpad := "ABCD" } :=
  ⟨C1_scratchpad_amended.1 vatSample "AAL1" "ABCD" vacSample rfl rfl rfl (by decide),
   C1_scratchpad_amended.2 simSample "AAL1" "ABCD" acSample rfl rfl⟩

/-! ## C3: Handoff acceptance delay range -/

/-- C3, counterexample: `rand.Intn(10)` can draw 9, and then the handoff
deadline is `now + 11` seconds — a delay of 11, outside the claimed
half-open interval [2,10). -/
theorem C3_counterexample :
    (9 < 10) ∧
    ((Sim.Handoff simSample "AAL1" "N90" 9).toOption.bind
      (fun s => alookup s.handoffs "AAL1")) =
        some (simSample.currentTime + ((2 + 9 : ℕ) : ℚ)) ∧
    ((2 + 9 : ℕ) : ℚ) = 11 ∧ ¬((11 : ℚ) < 10) := by
  refine ⟨by decide, rfl, by norm_num, by norm_num⟩

/-- C3, amended: a successful Local-Simulation `Handoff` records a pending
handoff whose deadline is the current virtual time plus `2 + rand.Intn(10)`
seconds — a delay always in the half-open interval [2,12) (the integers
2..11). -/
theorem C3_handoff_delay_amended :
    ∀ (s : SimState) (callsign controller : String) (r : ℕ) (ac : Aircraft)
      (ctrl : Controller),
      r < 10 →
      alookup s.aircraft callsign = some ac →
      ac.trackingController = s.scenarioCallsign →
      Sim.GetController s controller = some ctrl →
      ∃ s', Sim.Handoff s callsign controller r = .ok s' ∧
        alookup s'.handoffs callsign = some (s.currentTime + ((2 + r : ℕ) : ℚ)) ∧
        (2 : ℚ) ≤ ((2 + r : ℕ) : ℚ) ∧ ((2 + r : ℕ) : ℚ) < 12 := by
  intro s callsign controller r ac ctrl hr hac htrack hctrl
  refine ⟨{ s with
      aircraft := aupdate s.aircraft callsign
        { ac with outboundHandoffController := ctrl.callsign }
      events := s.events ++ [.ModifiedAircraft callsign]
      handoffs := aupdate s.handoffs callsign
        (s.currentTime + ((2 + r : ℕ) : ℚ)) }, ?_, ?_, ?_, ?_⟩
  · unfold Sim.Handoff
    rw [hac]
    simp [htrack, hctrl]
  · exact alookup_aupdate_self _ _ _
  · push_cast
    linarith
  · have hr' : (r : ℚ) < 10 := by exact_mod_cast hr
    push_cast
    linarith

/-- C3 witness: the amended theorem on the sample state with draw 9. -/
theorem C3_handoff_delay_amended_witness :
    ∃ s', Sim.Handoff simSample "AAL1" "N90" 9 = .ok s' ∧
      alookup s'.handoffs "AAL1" = some (simSample.currentTime + ((2 + 9 : ℕ) : ℚ)) ∧
      (2 : ℚ) ≤ ((2 + 9 : ℕ) : ℚ) ∧ ((2 + 9 : ℕ) : ℚ) < 12 :=
  C3_handoff_delay_amended simSample "AAL1" "N90" 9 acSample
    { callsign := "N90", sectorId := "1N" } (by decide) rfl rfl rfl

/-! ## C10: assigned-heading range invariant -/

/-- C10, counterexample: `AssignHeading` does not normalize headings other
than 0, so the integer argument 361 is stored as an assigned heading of
361, outside [1,360]. -/
theorem C10_counterexample :
    ((Sim.AssignHeading simSample "AAL1" 361 0).toOption.bind
      (fun s => (alookup s.aircraft "AAL1").map (·.assignedHeading))) = some 361 ∧
    ¬((361 : ℤ) ≤ 360) := by
  refine ⟨by decide, by decide⟩

/-- C10, amended: after a successful `AssignHeading` with a heading argument
in [0,360] — in particular heading 0 is stored as 360, since 0 denotes an
unassigned heading — the aircraft's assigned heading lies in [1,360]; after
`TurnLeft`/`TurnRight` by 1..359 degrees on an aircraft whose previous
assigned heading is in {0} ∪ [1,360] and whose current integer heading is in
[0,360], the assigned heading likewise lies in [1,360]; and each of the
three operations unconditionally sets `ClearedApproach` to false. -/
theorem C10_heading_range_amended :
    ∀ (s : SimState) (callsign : String) (ac : Aircraft),
      alookup s.aircraft callsign = some ac →
      (∀ heading turn : ℤ, 0 ≤ heading → heading ≤ 360 →
        ∃ s', Sim.AssignHeading s callsign heading turn = .ok s' ∧
          alookup s'.aircraft callsign = some (Sim.assignHeadingAC ac heading turn) ∧
          1 ≤ (Sim.assignHeadingAC ac heading turn).assignedHeading ∧
          (Sim.assignHeadingAC ac heading turn).assignedHeading ≤ 360) ∧
      (∀ deg : ℤ, 1 ≤ deg → deg ≤ 359 →
        0 ≤ ac.assignedHeading → ac.assignedHeading ≤ 360 →
        0 ≤ ac.heading → ac.heading ≤ 360 →
        ∃ s', Sim.TurnLeft s callsign deg = .ok s' ∧
          alookup s'.aircraft callsign = some (Sim.turnLeftAC ac deg) ∧
          1 ≤ (Sim.turnLeftAC ac deg).assignedHeading ∧
          (Sim.turnLeftAC ac deg).assignedHeading ≤ 360) ∧
      (∀ deg : ℤ, 1 ≤ deg → deg ≤ 359 →
        0 ≤ ac.assignedHeading → ac.assignedHeading ≤ 360 →
        0 ≤ ac.heading → ac.heading ≤ 360 →
        ∃ s', Sim.TurnRight s callsign deg = .ok s' ∧
          alookup s'.aircraft callsign = some (Sim.turnRightAC ac deg) ∧
          1 ≤ (Sim.turnRightAC ac deg).assignedHeading ∧
          (Sim.turnRightAC ac deg).assignedHeading ≤ 360) ∧
      (∀ heading turn : ℤ, (Sim.assignHeadingAC ac heading turn).clearedApproach = false) ∧
      (∀ deg : ℤ, (Sim.turnLeftAC ac deg).clearedApproach = false) ∧
      (∀ deg : ℤ, (Sim.turnRightAC ac deg).clearedApproach = false) := by
  intro s callsign ac hac
  refine ⟨?_, ?_, ?_, fun _ _ => rfl, fun _ => rfl, fun _ => rfl⟩
  · intro heading turn h0 h360
    refine ⟨{ s with
        aircraft := aupdate s.aircraft callsign (Sim.assignHeadingAC ac heading turn)
        events := s.events ++ [.RadioTransmission callsign] }, ?_, ?_, ?_, ?_⟩
    · unfold Sim.AssignHeading
      rw [hac]
    · exact alookup_aupdate_self _ _ _
    · unfold Sim.assignHeadingAC
      dsimp only
      split <;> omega
    · unfold Sim.assignHeadingAC
      dsimp only
      split <;> omega
  · intro deg h1 h359 ha0 ha360 hh0 hh360
    refine ⟨{ s with
        aircraft := aupdate s.aircraft callsign (Sim.turnLeftAC ac deg)
        events := s.events ++ [.RadioTransmission callsign] }, ?_, ?_, ?_, ?_⟩
    · unfold Sim.TurnLeft
      rw [hac]
    · exact alookup_aupdate_self _ _ _
    · unfold Sim.turnLeftAC
      dsimp only
      split <;> split <;> omega
    · unfold Sim.turnLeftAC
      dsimp only
      split <;> split <;> omega
  · intro deg h1 h359 ha0 ha360 hh0 hh360
    refine ⟨{ s with
        aircraft := aupdate s.aircraft callsign (Sim.turnRightAC ac deg)
        events := s.events ++ [.RadioTransmission callsign] }, ?_, ?_, ?_, ?_⟩
    · unfold Sim.TurnRight
      rw [hac]
    · exact alookup_aupdate_self _ _ _
    · unfold Sim.turnRightAC
      dsimp only
      split <;> split <;> omega
    · unfold Sim.turnRightAC
      dsimp only
      split <;> split <;> omega

/-- C10 witness: the amended theorem on the sample aircraft (assigned
heading 0, current heading 90), turning left 30 degrees and assigning
heading 0. -/
theorem C10_heading_range_amended_witness :
    (∃ s', Sim.AssignHeading simSample "AAL1" 0 0 = .ok s' ∧
      alookup s'.aircraft "AAL1" = some (Sim.assignHeadingAC acSample 0 0) ∧
      1 ≤ (Sim.assignHeadingAC acSample 0 0).assignedHeading ∧
      (Sim.assignHeadingAC acSample 0 0).assignedHeading ≤ 360) ∧
    (∃ s', Sim.TurnLeft simSample "AAL1" 30 = .ok s' ∧
      alookup s'.aircraft "AAL1" = some (Sim.turnLeftAC acSample 30) ∧
      1 ≤ (Sim.turnLeftAC acSample 30).assignedHeading ∧
      (Sim.turnLeftAC acSample 30).assignedHeading ≤ 360) :=
  ⟨((C10_heading_range_amended simSample "AAL1" acSample rfl).1 0 0
      (by decide) (by decide)),
   ((C10_heading_range_amended simSample "AAL1" acSample rfl).2.1 30
      (by decide) (by decide) (by decide) (by decide) (by decide) (by decide))⟩

/-! ## C2: observable equivalence of the two implementations -/

/-- C2, counterexample: with identical registries and tracking state (the
single aircraft "AAL1" tracked by the requester "ME" in both backends),
`InitiateTrack` fails with `OtherControllerHasTrack` in the Local Simulation
but succeeds in the Network Protocol Adapter, so the two implementations do
not return the same success-or-error outcome. -/
theorem C2_counterexample :
    simSample.scenarioCallsign = vatSample.callsign ∧
    ((alookup simSample.aircraft "AAL1").map (·.trackingController)) =
      alookup vatSample.trackingControllers "AAL1" ∧
    Sim.InitiateTrack simSample "AAL1" = .error .OtherControllerHasTrack ∧
    (VATSIMServer.InitiateTrack vatSample "AAL1").isOk = true := by
  refine ⟨rfl, rfl, rfl, rfl⟩

/-- C2, amended: the two implementations conform to the same command
surface and agree on the `NoAircraftForCallsign` outcome for every absent
callsign (for InitiateTrack, DropTrack, Handoff, AcceptHandoff and
SetScratchpad), and `InitiateTrack` on an existing, untracked aircraft
succeeds in both, setting the tracking controller to the requester; but
they are not observably equivalent in general: when the requester already
tracks the aircraft, `InitiateTrack` fails with `OtherControllerHasTrack`
in the Local Simulation and succeeds in the Network Protocol Adapter. -/
theorem C2_equivalence_amended :
    (∀ (s : SimState) (v : VATSIMState) (c sp ctrl : String) (r : ℕ),
      alookup s.aircraft c = none → alookup v.aircraft c = none →
      v.atcValid = true →
      (Sim.InitiateTrack s c = .error .NoAircraftForCallsign ∧
        VATSIMServer.InitiateTrack v c = .error .NoAircraftForCallsign) ∧
      (Sim.DropTrack s c = .error .NoAircraftForCallsign ∧
        VATSIMServer.DropTrack v c = .error .NoAircraftForCallsign) ∧
      (Sim.Handoff s c ctrl r = .error .NoAircraftForCallsign ∧
        VATSIMServer.Handoff v c ctrl = .error .NoAircraftForCallsign) ∧
      (Sim.AcceptHandoff s c = .error .NoAircraftForCallsign ∧
        VATSIMServer.AcceptHandoff v c = .error .NoAircraftForCallsign) ∧
      (Sim.SetScratchpad s c sp = .error .NoAircraftForCallsign ∧
        VATSIMServer.SetScratchpad v c sp = .error .NoAircraftForCallsign)) ∧
    (∀ (s : SimState) (v : VATSIMState) (c : String) (ac : Aircraft) (vac : VAircraft),
      alookup s.aircraft c = some ac → ac.trackingController = "" →
      alookup v.aircraft c = some vac → alookup v.trackingControllers c = none →
      v.atcValid = true →
      (∃ s', Sim.InitiateTrack s c = .ok s' ∧
        alookup s'.aircraft c = some { ac with trackingController := s.scenarioCallsign }) ∧
      (∃ v', VATSIMServer.InitiateTrack v c = .ok v' ∧
        alookup v'.trackingControllers c = some v.callsign)) ∧
    (∀ (s : SimState) (v : VATSIMState) (c : String) (ac : Aircraft) (vac : VAircraft),
      alookup s.aircraft c = some ac →
      ac.trackingController = s.scenarioCallsign → ac.trackingController ≠ "" →
      alookup v.aircraft c = some vac →
      alookup v.trackingControllers c = some v.callsign →
      v.atcValid = true →
      Sim.InitiateTrack s c = .error .OtherControllerHasTrack ∧
      (∃ v', VATSIMServer.InitiateTrack v c = .ok v')) := by
  refine ⟨?_, ?_, ?_⟩
  · intro s v c sp ctrl r hs hv hvalid
    refine ⟨⟨?_, ?_⟩, ⟨?_, ?_⟩, ⟨?_, ?_⟩, ⟨?_, ?_⟩, ⟨?_, ?_⟩⟩ <;>
      simp [Sim.InitiateTrack, Sim.DropTrack, Sim.Handoff, Sim.AcceptHandoff,
        Sim.SetScratchpad, VATSIMServer.InitiateTrack, VATSIMServer.DropTrack,
        VATSIMServer.Handoff, VATSIMServer.AcceptHandoff, VATSIMServer.SetScratchpad,
        hs, hv, hvalid]
  · intro s v c ac vac hs htrack hv hvtrack hvalid
    constructor
    · refine ⟨{ s with
          aircraft := aupdate s.aircraft c
            { ac with trackingController := s.scenarioCallsign }
          events := s.events ++ [.ModifiedAircraft c, .InitiatedTrack c] }, ?_, ?_⟩
      · unfold Sim.InitiateTrack
        rw [hs]
        simp [htrack]
      · exact alookup_aupdate_self _ _ _
    · have htba : VATSIMServer.trackedByAnotherController v c = false := by
        unfold VATSIMServer.trackedByAnotherController
        rw [hvtrack]
      refine ⟨{ v with
          trackingControllers := aupdate v.trackingControllers c v.callsign
          events := v.events ++ [.ModifiedAircraft c] }, ?_, ?_⟩
      · unfold VATSIMServer.InitiateTrack
        rw [hvalid, hv]
        simp [htba]
      · exact alookup_aupdate_self _ _ _
  · intro s v c ac vac hs htrack htrackne hv hvtrack hvalid
    constructor
    · unfold Sim.InitiateTrack
      rw [hs]
      simp [htrackne]
    · have htba : VATSIMServer.trackedByAnotherController v c = false := by
        unfold VATSIMServer.trackedByAnotherController
        rw [hvtrack]
        simp
      refine ⟨{ v with
          trackingControllers := aupdate v.trackingControllers c v.callsign
          events := v.events ++ [.ModifiedAircraft c] }, ?_⟩
      unfold VATSIMServer.InitiateTrack
      rw [hvalid, hv]
      simp [htba]

/-- C2 witness: the amended theorem on concrete corresponding states — an
absent callsign "XYZ", and the sample states where "AAL1" is tracked by the
requester "ME" in both backends. -/
theorem C2_equivalence_amended_witness :
    (Sim.InitiateTrack simSample "XYZ" = .error .NoAircraftForCallsign ∧
      VATSIMServer.InitiateTrack vatSample "XYZ" = .error .NoAircraftForCallsign) ∧
    (Sim.InitiateTrack simSample "AAL1" = .error .OtherControllerHasTrack ∧
      ∃ v', VATSIMServer.InitiateTrack vatSample "AAL1" = .ok v') :=
  ⟨(C2_equivalence_amended.1 simSample vatSample "XYZ" "" "" 0 rfl rfl rfl).1,
   C2_equivalence_amended.2.2 simSample vatSample "AAL1" acSample vacSample
     rfl rfl (by decide) rfl rfl rfl⟩

/-! ## C5: AcceptHandoff ownership check -/

/-- C5, counterexample: in the Network Protocol Adapter, "AAL1" has an
inbound handoff recorded from controller "N90"; the requesting controller
is "ME" ≠ "N90", yet `AcceptHandoff` succeeds rather than failing with
`NotBeingHandedOffToMe` — the recorded inbound handoff controller is never
compared with the requester. -/
theorem C5_counterexample :
    VATSIMServer.InboundHandoffController vatInbound "AAL1" = "N90" ∧
    vatInbound.callsign = "ME" ∧
    ("ME" : String) ≠ "N90" ∧
    (VATSIMServer.AcceptHandoff vatInbound "AAL1").isOk = true := by
  refine ⟨rfl, rfl, by decide, rfl⟩

/-- C5, amended: in the Local Simulation, `AcceptHandoff` fails with
`NotBeingHandedOffToMe` (changing no state) unless the requester equals the
aircraft's `inboundHandoffController`, and otherwise succeeds, taking the
track and clearing the inbound handoff.  In the Network Protocol Adapter,
`AcceptHandoff` fails with `NotBeingHandedOffToMe` exactly when no
inbound-handoff record exists for the callsign; whenever a record exists it
succeeds — regardless of the recorded offering controller — recording the
requester as tracking controller and deleting the inbound record. -/
theorem C5_accept_handoff_amended :
    (∀ (s : SimState) (c : String) (ac : Aircraft),
      alookup s.aircraft c = some ac →
      (ac.inboundHandoffController ≠ s.scenarioCallsign →
        Sim.AcceptHandoff s c = .error .NotBeingHandedOffToMe) ∧
      (ac.inboundHandoffController = s.scenarioCallsign →
        ∃ s', Sim.AcceptHandoff s c = .ok s' ∧
          alookup s'.aircraft c = some
            { ac with inboundHandoffController := ""
                      trackingController := s.scenarioCallsign })) ∧
    (∀ (v : VATSIMState) (c : String) (vac : VAircraft),
      v.atcValid = true →
      alookup v.aircraft c = some vac →
      (alookup v.inboundHandoffs c = none →
        VATSIMServer.AcceptHandoff v c = .error .NotBeingHandedOffToMe) ∧
      (∀ off, alookup v.inboundHandoffs c = some off →
        ∃ v', VATSIMServer.AcceptHandoff v c = .ok v' ∧
          alookup v'.trackingControllers c = some v.callsign ∧
          alookup v'.inboundHandoffs c = none)) := by
  constructor
  · intro s c ac hac
    constructor
    · intro hne
      unfold Sim.AcceptHandoff
      rw [hac]
      simp [hne]
    · intro heq
      refine ⟨{ s with
          aircraft := aupdate s.aircraft c
            { ac with inboundHandoffController := ""
                      trackingController := s.scenarioCallsign }
          events := s.events ++ [.AcceptedHandoff s.scenarioCallsign c,
                                 .ModifiedAircraft c] }, ?_, ?_⟩
      · unfold Sim.AcceptHandoff
        rw [hac]
        simp [heq]
      · exact alookup_aupdate_self _ _ _
  · intro v c vac hvalid hvac
    constructor
    · intro hnone
      unfold VATSIMServer.AcceptHandoff
      rw [hvalid, hvac, hnone]
      simp
    · intro off hsome
      refine ⟨{ v with
          trackingControllers := aupdate v.trackingControllers c v.callsign
          inboundHandoffs := adelete v.inboundHandoffs c
          events := v.events ++ [.ModifiedAircraft c] }, ?_, ?_, ?_⟩
      · unfold VATSIMServer.AcceptHandoff
        rw [hvalid, hvac, hsome]
        simp
      · exact alookup_aupdate_self _ _ _
      · exact alookup_adelete_self _ _

/-- C5 witness: the amended theorem on the sample states — the Local
Simulation rejecting an accept for an aircraft not handed off to "ME", and
the protocol adapter accepting the inbound handoff recorded for "AAL1". -/
theorem C5_accept_handoff_amended_witness :
    Sim.AcceptHandoff simSample "AAL1" = .error .NotBeingHandedOffToMe ∧
    ∃ v', VATSIMServer.AcceptHandoff vatInbound "AAL1" = .ok v' ∧
      alookup v'.trackingControllers "AAL1" = some vatInbound.callsign ∧
      alookup v'.inboundHandoffs "AAL1" = none :=
  ⟨(C5_accept_handoff_amended.1 simSample "AAL1" acSample rfl).1 (by decide),
   (C5_accept_handoff_amended.2 vatInbound "AAL1" vacSample rfl rfl).2 "N90" rfl⟩

/-! ## C6: spawn-timer re-arm -/

/-- C6: for a positive rate sum the re-armed spawn time is the current
virtual time plus a wait in [0.85·3600/r, 1.15·3600/r] seconds (for any
uniform draw u ∈ [0,1)); for r = 30 every wait lies in [102,138] seconds;
and for a rate sum of 0 the spawn time is set 365·24·3600 seconds (one
year) ahead, which exceeds any simulated day of 86400 seconds. -/
theorem C6_spawn_rearm :
    ∀ (now : ℚ) (r : ℕ) (u : ℚ), 0 ≤ u → u < 1 →
      (r ≠ 0 →
        (85 : ℚ)/100 * (3600 / (r : ℚ)) ≤ Sim.rearmSpawn now r u - now ∧
        Sim.rearmSpawn now r u - now ≤ (115 : ℚ)/100 * (3600 / (r : ℚ))) ∧
      (r = 30 →
        (102 : ℚ) ≤ Sim.rearmSpawn now r u - now ∧
        Sim.rearmSpawn now r u - now ≤ 138) ∧
      (r = 0 →
        Sim.rearmSpawn now r u = now + 31536000 ∧ (86400 : ℚ) < 31536000) := by
  intro now r u hu0 hu1
  have key : ∀ r' : ℕ, r' ≠ 0 →
      (85 : ℚ)/100 * (3600 / (r' : ℚ)) ≤ Sim.rearmSpawn now r' u - now ∧
      Sim.rearmSpawn now r' u - now ≤ (115 : ℚ)/100 * (3600 / (r' : ℚ)) := by
    intro r' hr
    have hrq : (0 : ℚ) < (r' : ℚ) := by
      exact_mod_cast Nat.pos_of_ne_zero hr
    have hA : (0 : ℚ) < 3600 / (r' : ℚ) := by positivity
    unfold Sim.rearmSpawn Sim.randomWait Sim.lerp
    rw [if_neg hr]
    dsimp only
    constructor
    · nlinarith
    · nlinarith
  refine ⟨key r, ?_, ?_⟩
  · intro h30
    subst h30
    obtain ⟨h1, h2⟩ := key 30 (by norm_num)
    norm_num at h1 h2
    constructor <;> linarith
  · intro h0
    subst h0
    unfold Sim.rearmSpawn Sim.randomWait
    norm_num

/-- C6 witness: the re-arm bounds at rate 30 with the draw u = 1/2, and the
one-year disable at rate 0. -/
theorem C6_spawn_rearm_witness :
    ((30 : ℕ) ≠ 0 →
      (85 : ℚ)/100 * (3600 / ((30 : ℕ) : ℚ)) ≤ Sim.rearmSpawn 0 30 (1/2) - 0 ∧
      Sim.rearmSpawn 0 30 (1/2) - 0 ≤ (115 : ℚ)/100 * (3600 / ((30 : ℕ) : ℚ))) ∧
    ((30 : ℕ) = 30 →
      (102 : ℚ) ≤ Sim.rearmSpawn 0 30 (1/2) - 0 ∧
      Sim.rearmSpawn 0 30 (1/2) - 0 ≤ 138) ∧
    ((30 : ℕ) = 0 →
      Sim.rearmSpawn 0 30 (1/2) = 0 + 31536000 ∧ (86400 : ℚ) < 31536000) :=
  C6_spawn_rearm 0 30 (1/2) (by norm_num) (by norm_num)


/-! ## C7: weighted reservoir sampling -/

/-- The key identity behind reservoir sampling, stated multiplicatively so
it needs no zero-divisor side conditions: the selection probability times
the total weight (initial running sum plus the rates still to come) equals
the candidate's total rate, plus the initial running sum when the candidate
is the currently-held result.  Degenerate all-zero prefixes (where Go's
`0/0` comparison is NaN and never replaces the held result) are covered by
rational division's `0/0 = 0`. -/
theorem sampleRateMapPMF_mul :
    ∀ (rates : List (String × ℕ)) (result x : String) (s0 : ℕ),
      Sim.sampleRateMapPMF result s0 rates x *
          ((s0 : ℚ) + (Sim.totalRate rates : ℚ)) =
        (Sim.rateOf rates x : ℚ) + (if x = result then (s0 : ℚ) else 0) := by
  intro rates
  induction rates with
  | nil =>
    intro result x s0
    simp only [Sim.sampleRateMapPMF, Sim.totalRate, Sim.rateOf]
    push_cast
    split <;> ring
  | cons p rest ih =>
    obtain ⟨a, r⟩ := p
    intro result x s0
    simp only [Sim.sampleRateMapPMF, Sim.totalRate, Sim.rateOf]
    have hS : (s0 : ℚ) + ((r + Sim.totalRate rest : ℕ) : ℚ) =
        (((s0 + r : ℕ) : ℚ)) + ((Sim.totalRate rest : ℕ) : ℚ) := by
      push_cast
      ring
    rw [hS]
    have IH1 := ih a x (s0 + r)
    have IH2 := ih result x (s0 + r)
    by_cases hz : s0 + r = 0
    · have hs0 : s0 = 0 := by omega
      have hr : r = 0 := by omega
      subst hs0
      subst hr
      simp only [Nat.add_zero, Nat.cast_zero, zero_add] at IH1 IH2 ⊢
      simp only [div_zero, zero_mul, zero_add, sub_zero, one_mul]
      rw [IH2]
      simp
    · have hq : ((s0 + r : ℕ) : ℚ) ≠ 0 := Nat.cast_ne_zero.mpr hz
      have expand :
          ((r : ℚ) / ((s0 + r : ℕ) : ℚ) * Sim.sampleRateMapPMF a (s0 + r) rest x +
            (1 - (r : ℚ) / ((s0 + r : ℕ) : ℚ)) * Sim.sampleRateMapPMF result (s0 + r) rest x) *
            (((s0 + r : ℕ) : ℚ) + ((Sim.totalRate rest : ℕ) : ℚ)) =
          (r : ℚ) / ((s0 + r : ℕ) : ℚ) *
              (Sim.sampleRateMapPMF a (s0 + r) rest x *
                (((s0 + r : ℕ) : ℚ) + ((Sim.totalRate rest : ℕ) : ℚ))) +
            (1 - (r : ℚ) / ((s0 + r : ℕ) : ℚ)) *
              (Sim.sampleRateMapPMF result (s0 + r) rest x *
                (((s0 + r : ℕ) : ℚ) + ((Sim.totalRate rest : ℕ) : ℚ))) := by
        ring
      rw [expand, IH1, IH2]
      push_cast
      have hq2 : (r : ℚ) + (s0 : ℚ) ≠ 0 := by
        push_cast at hq
        intro hc
        exact hq (by linarith)
      have hc : ((r : ℚ) + (s0 : ℚ)) * ((r : ℚ) + (s0 : ℚ))⁻¹ = 1 :=
        mul_inv_cancel₀ hq2
      by_cases hxa : x = a <;> by_cases hxr : x = result
      · simp only [if_pos hxa, if_pos hxr]
        field_simp [hq2]
        ring
      · simp only [if_pos hxa, if_neg hxr]
        field_simp [hq2]
        linear_combination (r : ℚ) * hc
      · simp only [if_neg hxa, if_pos hxr]
        field_simp [hq2]
        linear_combination (-(r : ℚ)) * hc
      · simp only [if_neg hxa, if_neg hxr]
        field_simp [hq2]
        ring

/-- C7: over the uniform draws it consumes, `sampleRateMap` selects each
candidate with probability exactly `rate/totalRate` — proportional to the
candidate's rate — whenever the rate map's total is positive. -/
theorem C7_reservoir_sampling :
    ∀ (rates : List (String × ℕ)) (x : String),
      0 < Sim.totalRate rates →
      Sim.sampleRateMapPMF "" 0 rates x =
        (Sim.rateOf rates x : ℚ) / (Sim.totalRate rates : ℚ) := by
  intro rates x hpos
  have h := sampleRateMapPMF_mul rates "" x 0
  simp only [Nat.cast_zero, zero_add, ite_self, add_zero] at h
  have hT : ((Sim.totalRate rates : ℕ) : ℚ) ≠ 0 := by
    have := Nat.pos_iff_ne_zero.mp hpos
    exact_mod_cast this
  rw [eq_div_iff hT]
  exact h

/-- C7 witness: the rate map {A:10, B:30} selects B with probability
30/40 = 75%. -/
theorem C7_reservoir_sampling_witness :
    0 < Sim.totalRate [("A", 10), ("B", 30)] ∧
    Sim.sampleRateMapPMF "" 0 [("A", 10), ("B", 30)] "B" =
      (Sim.rateOf [("A", 10), ("B", 30)] "B" : ℚ) /
        (Sim.totalRate [("A", 10), ("B", 30)] : ℚ) :=
  ⟨by decide, C7_reservoir_sampling _ "B" (by decide)⟩

/-! ## C4: handoff resolution on ticks -/

/-- Records whose callsign does not occur in the pending-handoff list leave
that callsign's registry entry untouched, produce no handoff record for it,
and only ever append to the event list. -/
theorem resolveHandoffsLoop_not_mem (now : ℚ) (hs : List (String × ℚ)) :
    ∀ (acs : List (String × Aircraft)) (evs : List Event) (c : String),
      c ∉ akeys hs →
      alookup (Sim.resolveHandoffsLoop now hs acs evs).1 c = alookup acs c ∧
      alookup (Sim.resolveHandoffsLoop now hs acs evs).2.1 c = none ∧
      ∀ ev, ev ∈ evs → ev ∈ (Sim.resolveHandoffsLoop now hs acs evs).2.2 := by
  induction hs with
  | nil =>
    intro acs evs c hc
    exact ⟨rfl, rfl, fun ev h => h⟩
  | cons p rest ih =>
    obtain ⟨k, t⟩ := p
    intro acs evs c hc
    have hkc : k ≠ c := by
      intro he
      exact hc (by simp [akeys, he])
    have hc' : c ∉ akeys rest := by
      intro hm
      apply hc
      have : akeys ((k, t) :: rest) = k :: akeys rest := rfl
      rw [this]
      exact List.mem_cons_of_mem _ hm
    simp only [Sim.resolveHandoffsLoop]
    by_cases hnt : now > t
    · rw [if_pos hnt]
      cases hl : alookup acs k with
      | some ac =>
        obtain ⟨h1, h2, h3⟩ := ih
          (aupdate acs k
            { ac with trackingController := ac.outboundHandoffController
                      outboundHandoffController := ""
                      assignedAltitude := ac.flightPlanAltitude })
          (evs ++ [.AcceptedHandoff ac.outboundHandoffController k]) c hc'
        refine ⟨?_, h2, ?_⟩
        · rw [h1, alookup_aupdate_ne _ _ _ _ hkc]
        · intro ev hev
          exact h3 ev (List.mem_append_left _ hev)
      | none =>
        exact ih acs evs c hc'
    · rw [if_neg hnt]
      obtain ⟨h1, h2, h3⟩ := ih acs evs c hc'
      refine ⟨h1, ?_, h3⟩
      simp only [alookup, if_neg hkc]
      exact h2

/-- The per-record behaviour of the handoff-resolution loop: a pending
record whose deadline has strictly passed transfers the track (clearing the
outbound handoff and assigning the cruise altitude), removes the record and
publishes the acceptance event; a record whose deadline lies ahead leaves
the aircraft and the record untouched. -/
theorem resolveHandoffsLoop_spec (now : ℚ) (hs : List (String × ℚ)) :
    ∀ (acs : List (String × Aircraft)) (evs : List Event) (c : String) (t : ℚ)
      (ac : Aircraft),
      (akeys hs).Nodup →
      alookup hs c = some t →
      alookup acs c = some ac →
      (now > t →
        alookup (Sim.resolveHandoffsLoop now hs acs evs).1 c = some
          { ac with trackingController := ac.outboundHandoffController
                    outboundHandoffController := ""
                    assignedAltitude := ac.flightPlanAltitude } ∧
        alookup (Sim.resolveHandoffsLoop now hs acs evs).2.1 c = none ∧
        (Event.AcceptedHandoff ac.outboundHandoffController c) ∈
          (Sim.resolveHandoffsLoop now hs acs evs).2.2) ∧
      (now < t →
        alookup (Sim.resolveHandoffsLoop now hs acs evs).1 c = some ac ∧
        alookup (Sim.resolveHandoffsLoop now hs acs evs).2.1 c = some t) := by
  induction hs with
  | nil =>
    intro acs evs c t ac hnd hht hac
    simp [alookup] at hht
  | cons p rest ih =>
    obtain ⟨k, tk⟩ := p
    intro acs evs c t ac hnd hht hac
    have hcons : akeys ((k, tk) :: rest) = k :: akeys rest := rfl
    rw [hcons] at hnd
    have hknotin : k ∉ akeys rest := (List.nodup_cons.mp hnd).1
    have hndrest : (akeys rest).Nodup := (List.nodup_cons.mp hnd).2
    by_cases hkc : k = c
    · subst hkc
      have ht : tk = t := by
        simpa [alookup] using hht
      subst ht
      constructor
      · intro hgt
        simp only [Sim.resolveHandoffsLoop, if_pos hgt]
        rw [hac]
        obtain ⟨h1, h2, h3⟩ := resolveHandoffsLoop_not_mem now rest
          (aupdate acs k
            { ac with trackingController := ac.outboundHandoffController
                      outboundHandoffController := ""
                      assignedAltitude := ac.flightPlanAltitude })
          (evs ++ [.AcceptedHandoff ac.outboundHandoffController k]) k hknotin
        refine ⟨?_, h2, ?_⟩
        · rw [h1, alookup_aupdate_self]
        · exact h3 _ (List.mem_append_right _ (List.mem_singleton_self _))
      · intro hlt
        have hngt : ¬ now > tk := not_lt_of_gt hlt
        simp only [Sim.resolveHandoffsLoop, if_neg hngt]
        obtain ⟨h1, h2, h3⟩ := resolveHandoffsLoop_not_mem now rest acs evs k hknotin
        refine ⟨by rw [h1, hac], ?_⟩
        simp [alookup]
    · have hhtrest : alookup rest c = some t := by
        simpa [alookup, hkc] using hht
      by_cases hnt : now > tk
      · simp only [Sim.resolveHandoffsLoop, if_pos hnt]
        cases hl : alookup acs k with
        | some ack =>
          have hac' : alookup (aupdate acs k
              { ack with trackingController := ack.outboundHandoffController
                         outboundHandoffController := ""
                         assignedAltitude := ack.flightPlanAltitude }) c = some ac := by
            rw [alookup_aupdate_ne _ _ _ _ hkc, hac]
          exact ih _ _ c t ac hndrest hhtrest hac'
        | none =>
          exact ih acs evs c t ac hndrest hhtrest hac
      · simp only [Sim.resolveHandoffsLoop, if_neg hnt]
        obtain ⟨hres1, hres2⟩ := ih acs evs c t ac hndrest hhtrest hac
        constructor
        · intro hgt
          obtain ⟨h1, h2, h3⟩ := hres1 hgt
          refine ⟨h1, ?_, h3⟩
          simp only [alookup, if_neg hkc]
          exact h2
        · intro hlt
          obtain ⟨h1, h2⟩ := hres2 hlt
          refine ⟨h1, ?_⟩
          simp only [alookup, if_neg hkc]
          exact h2

/-- C4: on a tick whose current virtual time is strictly past a pending
record's deadline, the aircraft's tracking controller becomes the handoff
destination, its outbound handoff is cleared, its assigned altitude becomes
the flight plan's cruise altitude, the record is removed, and an acceptance
event is published; on a tick strictly before the deadline the aircraft and
the record are unchanged. -/
theorem C4_handoff_resolution :
    ∀ (s : SimState) (c : String) (t : ℚ) (ac : Aircraft),
      (akeys s.handoffs).Nodup →
      alookup s.handoffs c = some t →
      alookup s.aircraft c = some ac →
      (s.currentTime > t →
        alookup (Sim.resolveHandoffs s).aircraft c = some
          { ac with trackingController := ac.outboundHandoffController
                    outboundHandoffController := ""
                    assignedAltitude := ac.flightPlanAltitude } ∧
        alookup (Sim.resolveHandoffs s).handoffs c = none ∧
        (Event.AcceptedHandoff ac.outboundHandoffController c) ∈
          (Sim.resolveHandoffs s).events) ∧
      (s.currentTime < t →
        alookup (Sim.resolveHandoffs s).aircraft c = some ac ∧
        alookup (Sim.resolveHandoffs s).handoffs c = some t) := by
  intro s c t ac hnd hht hac
  exact resolveHandoffsLoop_spec s.currentTime s.handoffs s.aircraft s.events
    c t ac hnd hht hac

/-- A sample simulation state with a pending handoff of "AAL1" to "N90"
with deadline 110, used to exercise the resolution loop. -/
def simPending : SimState :=
  { simSample with
    aircraft := [("AAL1", { acSample with outboundHandoffController := "N90" })]
    handoffs := [("AAL1", 110)] }

/-- C4 witness: on `simPending` at time 100 (before the deadline 110) the
record and the aircraft survive; at time 120 (past the deadline) the track
transfers to "N90" and the record is gone. -/
theorem C4_handoff_resolution_witness :
    ((simPending.currentTime > (110 : ℚ) → False) ∧
      (simPending.currentTime < 110 →
        alookup (Sim.resolveHandoffs simPending).aircraft "AAL1" =
          some { acSample with outboundHandoffController := "N90" } ∧
        alookup (Sim.resolveHandoffs simPending).handoffs "AAL1" = some 110)) ∧
    (({ simPending with currentTime := 120 } : SimState).currentTime > 110 →
      alookup (Sim.resolveHandoffs { simPending with currentTime := 120 }).aircraft
          "AAL1" = some
        { { acSample with outboundHandoffController := "N90" } with
            trackingController := "N90"
            outboundHandoffController := ""
            assignedAltitude :=
              { acSample with outboundHandoffController := "N90" }.flightPlanAltitude } ∧
      alookup (Sim.resolveHandoffs { simPending with currentTime := 120 }).handoffs
          "AAL1" = none ∧
      (Event.AcceptedHandoff "N90" "AAL1") ∈
        (Sim.resolveHandoffs { simPending with currentTime := 120 }).events) := by
  constructor
  · refine ⟨fun h => by norm_num [simPending, simSample] at h, ?_⟩
    exact fun h => (C4_handoff_resolution simPending "AAL1" 110
      { acSample with outboundHandoffController := "N90" }
      (by decide) rfl rfl).2 h
  · intro h
    have := (C4_handoff_resolution { simPending with currentTime := 120 } "AAL1" 110
      { acSample with outboundHandoffController := "N90" }
      (by decide) rfl rfl).1 h
    exact this

/-! ## C8: message dispatch -/

/-- The spec-table fold's state component is exactly `applyAllMatching`:
every matching specification's handler runs, in declared order, regardless
of the running match count, the accumulated logs, or handler errors. -/
theorem dispatchFold_state {σ : Type} (contents : String) (strs : List String) :
    ∀ (specs : List (VATSIMMessageSpec σ)) (st : σ) (n : ℕ)
      (logs : List DispatchLog),
      (specs.foldl (VATSIMServer.dispatchStep contents strs) (st, n, logs)).1 =
        VATSIMServer.applyAllMatching specs st strs := by
  intro specs
  induction specs with
  | nil => intro st n logs; rfl
  | cons spec rest ih =>
    intro st n logs
    simp only [List.foldl, VATSIMServer.dispatchStep, VATSIMServer.applyAllMatching]
    cases hm : spec.Match strs with
    | none => exact ih st n logs
    | some p =>
      obtain ⟨sender, args⟩ := p
      cases hh : spec.handler with
      | none => exact ih st (n + 1) logs
      | some h =>
        cases hr : h st sender args with
        | mk st' err =>
          cases err with
          | none => simpa [hr] using ih st' (n + 1) logs
          | some e =>
            simpa [hr] using ih st' (n + 1)
              (logs ++ [.fsdMessageError e contents])

/-- When no specification matches, the spec-table fold leaves its
accumulator untouched. -/
theorem dispatchFold_nomatch {σ : Type} (contents : String) (strs : List String) :
    ∀ (specs : List (VATSIMMessageSpec σ)),
      (∀ spec ∈ specs, spec.Match strs = none) →
      ∀ (st : σ) (n : ℕ) (logs : List DispatchLog),
        specs.foldl (VATSIMServer.dispatchStep contents strs) (st, n, logs) =
          (st, n, logs) := by
  intro specs
  induction specs with
  | nil => intro _ st n logs; rfl
  | cons spec rest ih =>
    intro hall st n logs
    have hm : spec.Match strs = none := hall spec (List.mem_cons_self _ _)
    simp only [List.foldl, VATSIMServer.dispatchStep, hm]
    exact ih (fun sp hsp => hall sp (List.mem_cons_of_mem _ hsp)) st n logs

/-- C8: dispatching one inbound line; with a non-empty first colon-separated
field, the post-state applies the handler of every matching specification in
declared table order (`applyAllMatching`); with zero matching specifications
the state is unchanged and the line is only logged as unrecognized; a
malformed line (empty first field, which includes the empty line) is logged,
leaves the state unchanged, and the batch continues with the remaining
lines. -/
theorem C8_message_dispatch :
    ∀ (σ : Type) (specs : List (VATSIMMessageSpec σ)) (st : σ) (contents : String)
      (s0 : String) (tl : List String),
      goSplitColon (goTrimSpace contents.data) = s0 :: tl →
      (s0.length ≠ 0 →
        (VATSIMServer.dispatchMessage specs st contents).1 =
          VATSIMServer.applyAllMatching specs st (s0 :: tl)) ∧
      (s0.length ≠ 0 → (∀ spec ∈ specs, spec.Match (s0 :: tl) = none) →
        VATSIMServer.dispatchMessage specs st contents =
          (st, [.noRuleMatched contents])) ∧
      (s0.length = 0 →
        VATSIMServer.dispatchMessage specs st contents =
          (st, [.emptyFirstField contents]) ∧
        ∀ msgs, VATSIMServer.dispatchBatch specs st (contents :: msgs) =
          ((VATSIMServer.dispatchBatch specs st msgs).1,
            .emptyFirstField contents :: (VATSIMServer.dispatchBatch specs st msgs).2)) := by
  intro σ specs st contents s0 tl hsplit
  refine ⟨?_, ?_, ?_⟩
  · intro hne
    simp only [VATSIMServer.dispatchMessage, hsplit]
    rw [if_neg hne]
    by_cases hz :
        (specs.foldl (VATSIMServer.dispatchStep contents (s0 :: tl)) (st, 0, [])).2.1 = 0
    · rw [if_pos hz]
      exact dispatchFold_state contents (s0 :: tl) specs st 0 []
    · rw [if_neg hz]
      exact dispatchFold_state contents (s0 :: tl) specs st 0 []
  · intro hne hall
    simp only [VATSIMServer.dispatchMessage, hsplit]
    rw [if_neg hne, dispatchFold_nomatch contents (s0 :: tl) specs hall st 0 []]
    rfl
  · intro hzero
    have hmsg : VATSIMServer.dispatchMessage specs st contents =
        (st, [.emptyFirstField contents]) := by
      simp only [VATSIMServer.dispatchMessage, hsplit]
      rw [if_pos hzero]
    refine ⟨hmsg, ?_⟩
    intro msgs
    simp only [VATSIMServer.dispatchBatch, hmsg]
    simp

/-- A sample message specification over counter state: matches any line with
at least two fields and counts it. -/
def specCount : VATSIMMessageSpec ℕ :=
  { Match := fun strs => if strs.length ≥ 2 then some ("S", strs) else none
    handler := some (fun n sender args => (n + 1, none)) }

/-- A sample message specification that never matches. -/
def specNever : VATSIMMessageSpec ℕ :=
  { Match := fun _ => none
    handler := none }

/-- C8 witness: dispatching "X:1" against a two-entry table applies every
matching handler (the counter reaches the `applyAllMatching` semantics), and
the malformed line ":ping" is logged and skipped with the state unchanged. -/
theorem C8_message_dispatch_witness :
    ((VATSIMServer.dispatchMessage [specCount, specNever] (0 : ℕ) "X:1").1 =
      VATSIMServer.applyAllMatching [specCount, specNever] 0 ["X", "1"]) ∧
    (VATSIMServer.dispatchMessage [specCount, specNever] (0 : ℕ) ":ping" =
      (0, [.emptyFirstField ":ping"])) :=
  ⟨(C8_message_dispatch ℕ [specCount, specNever] 0 "X:1" "X" ["1"] (by decide)).1
      (by decide),
   ((C8_message_dispatch ℕ [specCount, specNever] 0 ":ping" "" ["ping"]
      (by decide)).2.2 rfl).1⟩

/-! ## C9: staleness eviction -/

theorem count_append_one_ne {α : Type} [DecidableEq α] (l : List α) (a b : α)
    (h : b ≠ a) : (l ++ [b]).count a = l.count a := by
  have hz : List.count a [b] = 0 := List.count_eq_zero.mpr (by simp [Ne.symm h])
  rw [List.count_append, hz, Nat.add_zero]

theorem count_append_one_self {α : Type} [DecidableEq α] (l : List α) (a : α) :
    (l ++ [a]).count a = l.count a + 1 := by
  simp [List.count_append]

theorem alookup_some_mem {α : Type} (m : List (String × α)) (k : String) (a : α)
    (h : alookup m k = some a) : (k, a) ∈ m := by
  induction m with
  | nil => simp [alookup] at h
  | cons p rest ih =>
    obtain ⟨k', v'⟩ := p
    by_cases hk : k' = k
    · subst hk
      have hv : alookup ((k', v') :: rest) k' = some v' := by
        simp [alookup]
      rw [hv] at h
      injection h with h
      subst h
      exact List.mem_cons_self _ _
    · simp only [alookup, if_neg hk] at h
      exact List.mem_cons_of_mem _ (ih h)

/-- Aircraft whose callsign is not among the swept entries keep their
registry, tracking and handoff entries, and gain no removal event. -/
theorem evictLoop_not_mem (now : ℚ) (entries : List (String × VAircraft)) :
    ∀ (v : VATSIMState) (c : String), c ∉ akeys entries →
      alookup (VATSIMServer.evictLoop now entries v).aircraft c =
        alookup v.aircraft c ∧
      alookup (VATSIMServer.evictLoop now entries v).trackingControllers c =
        alookup v.trackingControllers c ∧
      alookup (VATSIMServer.evictLoop now entries v).outboundHandoffs c =
        alookup v.outboundHandoffs c ∧
      alookup (VATSIMServer.evictLoop now entries v).inboundHandoffs c =
        alookup v.inboundHandoffs c ∧
      (VATSIMServer.evictLoop now entries v).events.count (Event.RemovedAircraft c) =
        v.events.count (Event.RemovedAircraft c) := by
  induction entries with
  | nil =>
    intro v c hc
    exact ⟨rfl, rfl, rfl, rfl, rfl⟩
  | cons p rest ih =>
    obtain ⟨k, ak⟩ := p
    intro v c hc
    have hkc : k ≠ c := by
      intro he
      exact hc (by simp [akeys, he])
    have hc' : c ∉ akeys rest := by
      intro hm
      apply hc
      have : akeys ((k, ak) :: rest) = k :: akeys rest := rfl
      rw [this]
      exact List.mem_cons_of_mem _ hm
    simp only [VATSIMServer.evictLoop]
    by_cases hstale : (now - ak.latestTrackTime) / 60 > 30
    · rw [if_pos hstale]
      obtain ⟨h1, h2, h3, h4, h5⟩ := ih _ c hc'
      refine ⟨?_, ?_, ?_, ?_, ?_⟩
      · rw [h1]; exact alookup_adelete_ne _ _ _ hkc
      · rw [h2]; exact alookup_adelete_ne _ _ _ hkc
      · rw [h3]; exact alookup_adelete_ne _ _ _ hkc
      · rw [h4]; exact alookup_adelete_ne _ _ _ hkc
      · rw [h5]
        exact count_append_one_ne _ _ _ (by intro he; exact hkc (by injection he))
    · rw [if_neg hstale]
      exact ih v c hc'

/-- The per-aircraft behaviour of the staleness sweep: an aircraft whose
latest track is more than 30 minutes old is removed from all four maps with
exactly one removal event added; a fresh aircraft keeps all its entries and
gains no removal event. -/
theorem evictLoop_spec (now : ℚ) (entries : List (String × VAircraft)) :
    ∀ (v : VATSIMState) (c : String) (ac : VAircraft),
      (akeys entries).Nodup →
      (c, ac) ∈ entries →
      ((now - ac.latestTrackTime) / 60 > 30 →
        alookup (VATSIMServer.evictLoop now entries v).aircraft c = none ∧
        alookup (VATSIMServer.evictLoop now entries v).trackingControllers c = none ∧
        alookup (VATSIMServer.evictLoop now entries v).outboundHandoffs c = none ∧
        alookup (VATSIMServer.evictLoop now entries v).inboundHandoffs c = none ∧
        (VATSIMServer.evictLoop now entries v).events.count (Event.RemovedAircraft c) =
          v.events.count (Event.RemovedAircraft c) + 1) ∧
      (¬((now - ac.latestTrackTime) / 60 > 30) →
        alookup (VATSIMServer.evictLoop now entries v).aircraft c =
          alookup v.aircraft c ∧
        alookup (VATSIMServer.evictLoop now entries v).trackingControllers c =
          alookup v.trackingControllers c ∧
        alookup (VATSIMServer.evictLoop now entries v).outboundHandoffs c =
          alookup v.outboundHandoffs c ∧
        alookup (VATSIMServer.evictLoop now entries v).inboundHandoffs c =
          alookup v.inboundHandoffs c ∧
        (VATSIMServer.evictLoop now entries v).events.count (Event.RemovedAircraft c) =
          v.events.count (Event.RemovedAircraft c)) := by
  induction entries with
  | nil =>
    intro v c ac hnd hm
    simp at hm
  | cons p rest ih =>
    obtain ⟨k, ak⟩ := p
    intro v c ac hnd hm
    have hcons : akeys ((k, ak) :: rest) = k :: akeys rest := rfl
    rw [hcons] at hnd
    have hknotin : k ∉ akeys rest := (List.nodup_cons.mp hnd).1
    have hndrest : (akeys rest).Nodup := (List.nodup_cons.mp hnd).2
    rcases List.mem_cons.mp hm with heq | hmem
    · injection heq with hk hak
      subst hk
      subst hak
      have hc' : c ∉ akeys rest := hknotin
      constructor
      · intro hstale
        simp only [VATSIMServer.evictLoop, if_pos hstale]
        obtain ⟨h1, h2, h3, h4, h5⟩ := evictLoop_not_mem now rest _ c hc'
        refine ⟨?_, ?_, ?_, ?_, ?_⟩
        · rw [h1]; exact alookup_adelete_self _ _
        · rw [h2]; exact alookup_adelete_self _ _
        · rw [h3]; exact alookup_adelete_self _ _
        · rw [h4]; exact alookup_adelete_self _ _
        · rw [h5]; exact count_append_one_self _ _
      · intro hfresh
        simp only [VATSIMServer.evictLoop, if_neg hfresh]
        exact evictLoop_not_mem now rest v c hc'
    · have hc : c ∈ akeys rest := by
        have : c = (c, ac).1 := rfl
        rw [this]
        exact List.mem_map_of_mem _ hmem
      have hkc : k ≠ c := fun he => hknotin (he ▸ hc)
      by_cases hstale : (now - ak.latestTrackTime) / 60 > 30
      · simp only [VATSIMServer.evictLoop, if_pos hstale]
        obtain ⟨ih1, ih2⟩ := ih _ c ac hndrest hmem
        constructor
        · intro hs
          obtain ⟨h1, h2, h3, h4, h5⟩ := ih1 hs
          refine ⟨h1, h2, h3, h4, ?_⟩
          rw [h5]
          simp only []
          rw [count_append_one_ne _ _ _ (by intro he; exact hkc (by injection he))]
        · intro hf
          obtain ⟨h1, h2, h3, h4, h5⟩ := ih2 hf
          refine ⟨?_, ?_, ?_, ?_, ?_⟩
          · rw [h1]; exact alookup_adelete_ne _ _ _ hkc
          · rw [h2]; exact alookup_adelete_ne _ _ _ hkc
          · rw [h3]; exact alookup_adelete_ne _ _ _ hkc
          · rw [h4]; exact alookup_adelete_ne _ _ _ hkc
          · rw [h5]
            exact count_append_one_ne _ _ _ (by intro he; exact hkc (by injection he))
      · simp only [VATSIMServer.evictLoop, if_neg hstale]
        exact ih v c ac hndrest hmem

/-- C9: after a batch, an aircraft not heard from for more than 30 minutes
of session time is removed — in the same sweep — from the aircraft
registry, the tracking-controller map and both handoff maps, with exactly
one removal event published for it; an aircraft heard from within 30
minutes keeps all its entries and gains no removal event. -/
theorem C9_staleness_eviction :
    ∀ (now : ℚ) (v : VATSIMState) (c : String) (ac : VAircraft),
      (akeys v.aircraft).Nodup →
      alookup v.aircraft c = some ac →
      ((now - ac.latestTrackTime) / 60 > 30 →
        alookup (VATSIMServer.evictStale now v).aircraft c = none ∧
        alookup (VATSIMServer.evictStale now v).trackingControllers c = none ∧
        alookup (VATSIMServer.evictStale now v).outboundHandoffs c = none ∧
        alookup (VATSIMServer.evictStale now v).inboundHandoffs c = none ∧
        (VATSIMServer.evictStale now v).events.count (Event.RemovedAircraft c) =
          v.events.count (Event.RemovedAircraft c) + 1) ∧
      (¬((now - ac.latestTrackTime) / 60 > 30) →
        alookup (VATSIMServer.evictStale now v).aircraft c = some ac ∧
        alookup (VATSIMServer.evictStale now v).trackingControllers c =
          alookup v.trackingControllers c ∧
        alookup (VATSIMServer.evictStale now v).outboundHandoffs c =
          alookup v.outboundHandoffs c ∧
        alookup (VATSIMServer.evictStale now v).inboundHandoffs c =
          alookup v.inboundHandoffs c ∧
        (VATSIMServer.evictStale now v).events.count (Event.RemovedAircraft c) =
          v.events.count (Event.RemovedAircraft c)) := by
  intro now v c ac hnd hac
  have hm : (c, ac) ∈ v.aircraft := alookup_some_mem _ _ _ hac
  obtain ⟨h1, h2⟩ := evictLoop_spec now v.aircraft v c ac hnd hm
  refine ⟨h1, ?_⟩
  intro hf
  obtain ⟨g1, g2, g3, g4, g5⟩ := h2 hf
  refine ⟨?_, g2, g3, g4, g5⟩
  show alookup (VATSIMServer.evictLoop now v.aircraft v).aircraft c = some ac
  rw [g1, hac]

/-- A fresh protocol-adapter aircraft last heard from at t = 3000 s. -/
def vacFresh : VAircraft := { scratchpad := "", latestTrackTime := 3000 }

/-- A protocol-adapter state with a stale aircraft "AAL1" (last track at
t = 0) and a fresh aircraft "UAL2" (last track at t = 3000). -/
def vatStale : VATSIMState :=
  { vatSample with
    aircraft := [("AAL1", vacSample), ("UAL2", vacFresh)]
    trackingControllers := [("AAL1", "ME"), ("UAL2", "ME")]
    outboundHandoffs := [("AAL1", "N90")]
    inboundHandoffs := [] }

/-- C9 witness: at session time 4000 s, "AAL1" (silent for 4000 s > 30 min)
is evicted from every map with exactly one removal event, while "UAL2"
(heard 1000 s ago) keeps its entries. -/
theorem C9_staleness_eviction_witness :
    (((4000 : ℚ) - vacSample.latestTrackTime) / 60 > 30 →
      alookup (VATSIMServer.evictStale 4000 vatStale).aircraft "AAL1" = none ∧
      alookup (VATSIMServer.evictStale 4000 vatStale).trackingControllers "AAL1" = none ∧
      alookup (VATSIMServer.evictStale 4000 vatStale).outboundHandoffs "AAL1" = none ∧
      alookup (VATSIMServer.evictStale 4000 vatStale).inboundHandoffs "AAL1" = none ∧
      (VATSIMServer.evictStale 4000 vatStale).events.count
          (Event.RemovedAircraft "AAL1") =
        vatStale.events.count (Event.RemovedAircraft "AAL1") + 1) ∧
    (¬(((4000 : ℚ) - vacFresh.latestTrackTime) / 60 > 30) →
      alookup (VATSIMServer.evictStale 4000 vatStale).aircraft "UAL2" =
        some vacFresh ∧
      alookup (VATSIMServer.evictStale 4000 vatStale).trackingControllers "UAL2" =
        alookup vatStale.trackingControllers "UAL2" ∧
      alookup (VATSIMServer.evictStale 4000 vatStale).outboundHandoffs "UAL2" =
        alookup vatStale.outboundHandoffs "UAL2" ∧
      alookup (VATSIMServer.evictStale 4000 vatStale).inboundHandoffs "UAL2" =
        alookup vatStale.inboundHandoffs "UAL2" ∧
      (VATSIMServer.evictStale 4000 vatStale).events.count
          (Event.RemovedAircraft "UAL2") =
        vatStale.events.count (Event.RemovedAircraft "UAL2")) :=
  ⟨(C9_staleness_eviction 4000 vatStale "AAL1" vacSample (by decide) rfl).1,
   (C9_staleness_eviction 4000 vatStale "UAL2" vacFresh (by decide) rfl).2⟩
